import Mathlib

/-!
Shallow embedding of `src/firmware/esp32-roastomatic/src/main.cpp`:
the roast-process state machine (`manual_roast`), the rate gates, the
main `loop` ordering, the potentiometer duty computation and the
program-dispatch logic. Floating-point sensor values are modelled as
exact rationals; C `int` millisecond timestamps as `Int`.
-/

namespace Roastomatic

/-! ## Constants (from `main.cpp`) -/

/-- `const int ADC_BIT_DEPTH = 12;` -/
def ADC_BIT_DEPTH : Nat := 12

/-- `const int MAX_POT_VALUE = (1 << ADC_BIT_DEPTH) - 1;` (= 4095) -/
def MAX_POT_VALUE : Nat := (1 <<< ADC_BIT_DEPTH) - 1

/-- `const int MIN_TEMP_SAMPLE_RATE = 250;` -/
def MIN_TEMP_SAMPLE_RATE : Int := 250

/-- `const int MIN_LOAD_CELL_SAMPLE_RATE = 100;` -/
def MIN_LOAD_CELL_SAMPLE_RATE : Int := 100

/-- `const float ROAST_WEIGHT_GRAMS = 90.1;` -/
def ROAST_WEIGHT_GRAMS : ℚ := 901 / 10

/-- `const float MIN_TEMP_FOR_PREHEAT = 325.0;` -/
def MIN_TEMP_FOR_PREHEAT : ℚ := 325

/-- `const float MAX_BEAN_TEMP_FOR_DONE = 80.0;` -/
def MAX_BEAN_TEMP_FOR_DONE : ℚ := 80

/-- `const float MAX_HEAT_DUTY_FOR_DROP = 10;` -/
def MAX_HEAT_DUTY_FOR_DROP : ℚ := 10

/-- `const int MIN_SERIAL_PRINT_RATE = 250;` -/
def MIN_SERIAL_PRINT_RATE : Int := 250

/-- `const int MIN_DISPLAY_RATE = 1000 / 60;` (C integer division, = 16) -/
def MIN_DISPLAY_RATE : Int := 1000 / 60

/-- `enum MANUAL_ROAST_STATES { READY, PREHEAT, TARE, LOAD, CALIBRATE, ROAST,
DROP, DONE, NSTATES };` — the eight roast phases are the values `0..7`,
`NSTATES = 8` exists only for modulo arithmetic. -/
def NSTATES : Nat := 8

/-- `const char *state_strings[]` — nine labels, the ninth (`"wrap"`) has no
corresponding enum phase. -/
def state_strings : List String :=
  ["prep", "heat", "tare", "load", "cal.", "cook", "drop", "done", "wrap"]

/-! ## Roast state machine (`manual_roast`) -/

/-- The inputs one `manual_roast` pass reads: `millis()`, the debounced
power-button change flag (`buttons[1].changed()`), and the shared sensor
globals refreshed by `loop` (`intake_temp_f`, `bean_temp_f`, `heat_duty`,
`weight`, `fan_value`, `heat_value`). -/
structure RoastInput where
  t : Int
  buttonChanged : Bool
  intake_temp_f : ℚ
  bean_temp_f : ℚ
  heat_duty : Int
  weight : ℚ
  fan_value : Int
  heat_value : Int
  deriving Repr, DecidableEq

/-- The mutable globals `manual_roast` owns: `manual_roast_state`,
`start_roast_time`, `elapsed_roast_time`, `start_total_time`,
`elapsed_total_time`, `drop_percent`, `last_display_time`,
`last_serial_write_time`. -/
structure RoastState where
  manual_roast_state : Nat
  start_roast_time : Int
  elapsed_roast_time : Int
  start_total_time : Int
  elapsed_total_time : Int
  drop_percent : ℚ
  last_display_time : Int
  last_serial_write_time : Int
  deriving Repr, DecidableEq

/-- All globals zero-initialized; `manual_roast_setup` sets
`manual_roast_state = READY` (= 0). -/
def initial_roast_state : RoastState :=
  { manual_roast_state := 0
    start_roast_time := 0
    elapsed_roast_time := 0
    start_total_time := 0
    elapsed_total_time := 0
    drop_percent := 0
    last_display_time := 0
    last_serial_write_time := 0 }

/-- `if (buttons[1].changed()) { manual_roast_state =
(MANUAL_ROAST_STATES)((manual_roast_state + 1) % NSTATES); buttons[1].reset(); }` -/
def button_advance (inp : RoastInput) (s : RoastState) : RoastState :=
  if inp.buttonChanged then
    { s with manual_roast_state := (s.manual_roast_state + 1) % NSTATES }
  else s

/-- The `switch (manual_roast_state)` body of `manual_roast`.  `scale.tare()`
(TARE) and `scale.calibrate_scale(ROAST_WEIGHT_GRAMS)` (CALIBRATE) are
external blocking calls with no modelled state.  The LOAD → CALIBRATE weight
guard is commented out in the source, so the LOAD case is a no-op.  DONE has
no case and falls through. -/
def roast_switch (inp : RoastInput) (s : RoastState) : RoastState :=
  if s.manual_roast_state = 0 then
    -- case READY: start_total_time = t; manual_roast_state = PREHEAT;
    { s with start_total_time := inp.t, manual_roast_state := 1 }
  else if s.manual_roast_state = 1 then
    -- case PREHEAT: if (intake_temp_f >= MIN_TEMP_FOR_PREHEAT) state = TARE;
    if MIN_TEMP_FOR_PREHEAT ≤ inp.intake_temp_f then
      { s with manual_roast_state := 2 }
    else s
  else if s.manual_roast_state = 2 then
    -- case TARE: scale.tare(); manual_roast_state = LOAD;
    { s with manual_roast_state := 3 }
  else if s.manual_roast_state = 3 then
    -- case LOAD: body commented out in the source
    s
  else if s.manual_roast_state = 4 then
    -- case CALIBRATE: start_roast_time = t; calibrate; state = ROAST;
    { s with start_roast_time := inp.t, manual_roast_state := 5 }
  else if s.manual_roast_state = 5 then
    -- case ROAST: if (heat_duty <= MAX_HEAT_DUTY_FOR_DROP) state = DROP;
    -- drop_percent = 100 * (ROAST_WEIGHT_GRAMS - weight) / ROAST_WEIGHT_GRAMS;
    -- elapsed_roast_time = t - start_roast_time;
    let s1 :=
      if (inp.heat_duty : ℚ) ≤ MAX_HEAT_DUTY_FOR_DROP then
        { s with manual_roast_state := 6 }
      else s
    { s1 with
        drop_percent := 100 * (ROAST_WEIGHT_GRAMS - inp.weight) / ROAST_WEIGHT_GRAMS,
        elapsed_roast_time := inp.t - s1.start_roast_time }
  else if s.manual_roast_state = 6 then
    -- case DROP: if (bean_temp_f < MAX_BEAN_TEMP_FOR_DONE) state = DONE;
    if inp.bean_temp_f < MAX_BEAN_TEMP_FOR_DONE then
      { s with manual_roast_state := 7 }
    else s
  else s

/-- `if (t - last_display_time > MIN_DISPLAY_RATE)` — display refresh gate
(strict `>`). -/
def display_gate_due (t last : Int) : Bool :=
  decide (MIN_DISPLAY_RATE < t - last)

/-- `if ((t - last_serial_write_time) > MIN_SERIAL_PRINT_RATE)` — telemetry
gate (strict `>`). -/
def serial_gate_due (t last : Int) : Bool :=
  decide (MIN_SERIAL_PRINT_RATE < t - last)

/-- `if (elapsed_temp_sample >= MIN_TEMP_SAMPLE_RATE)` — thermocouple
sampling gate in `loop` (`>=`). -/
def temp_gate_due (t start : Int) : Bool :=
  decide (MIN_TEMP_SAMPLE_RATE ≤ t - start)

/-- `if ((t - scale.last_time_read()) >= MIN_LOAD_CELL_SAMPLE_RATE)` —
load-cell sampling gate in `loop` (`>=`). -/
def load_cell_gate_due (t lastRead : Int) : Bool :=
  decide (MIN_LOAD_CELL_SAMPLE_RATE ≤ t - lastRead)

/-- Button advance, then the switch, then the unconditional
`elapsed_total_time = t - start_total_time;` (line after the switch). -/
def roast_core (inp : RoastInput) (s : RoastState) : RoastState :=
  let s1 := roast_switch inp (button_advance inp s)
  { s1 with elapsed_total_time := inp.t - s1.start_total_time }

/-- One full `manual_roast` pass: core update, then the display block
(`last_display_time = t` when due), then the serial block
(`last_serial_write_time = t` when due). -/
def roast_update (inp : RoastInput) (s : RoastState) : RoastState :=
  let s2 := roast_core inp s
  let s3 :=
    if display_gate_due inp.t s2.last_display_time then
      { s2 with last_display_time := inp.t }
    else s2
  if serial_gate_due inp.t s3.last_serial_write_time then
    { s3 with last_serial_write_time := inp.t }
  else s3

/-- Fold `manual_roast` over a list of per-pass inputs. -/
def roast_run (inps : List RoastInput) (s : RoastState) : RoastState :=
  inps.foldl (fun acc i => roast_update i acc) s

/-- The phase the `switch` dispatches on at each pass (the value of
`manual_roast_state` after the button check, when the switch is entered). -/
def dispatch_trace : List RoastInput → RoastState → List Nat
  | [], _ => []
  | inp :: rest, s =>
      (button_advance inp s).manual_roast_state :: dispatch_trace rest (roast_update inp s)

/-- `dtostrf((drop_percent > 0.0) ? drop_percent : 0.0, 4, 2, float_string)` —
the drop percentage as clamped for display. -/
def displayed_drop_percent (d : ℚ) : ℚ :=
  if 0 < d then d else 0

/-! ## Telemetry (`manual_roast` serial block) -/

/-- One printed telemetry field: an `int`, a C string, or a `float`
(modelled as ℚ). -/
inductive TelemetryValue where
  | ofInt : Int → TelemetryValue
  | ofStr : String → TelemetryValue
  | ofRat : ℚ → TelemetryValue
  deriving Repr, DecidableEq

/-- The comma-delimited line of the serial block, fields in `Serial.print`
order: `elapsed_roast_time, elapsed_total_time,
state_strings[manual_roast_state], fan_value, heat_value, bean_temp_f,
intake_temp_f, weight, drop_percent`. -/
def telemetry_line (inp : RoastInput) (s : RoastState) : List TelemetryValue :=
  [TelemetryValue.ofInt s.elapsed_roast_time,
   TelemetryValue.ofInt s.elapsed_total_time,
   TelemetryValue.ofStr (state_strings.getD s.manual_roast_state ""),
   TelemetryValue.ofInt inp.fan_value,
   TelemetryValue.ofInt inp.heat_value,
   TelemetryValue.ofRat inp.bean_temp_f,
   TelemetryValue.ofRat inp.intake_temp_f,
   TelemetryValue.ofRat inp.weight,
   TelemetryValue.ofRat s.drop_percent]

/-- The telemetry lines one `manual_roast` pass emits: exactly one line when
the serial gate is due, none otherwise.  The serial block runs after the
switch and the display block, which leave `last_serial_write_time`
unchanged, so the gate reads the pre-pass timestamp. -/
def serial_output (inp : RoastInput) (s : RoastState) : List (List TelemetryValue) :=
  let s2 := roast_core inp s
  if serial_gate_due inp.t s2.last_serial_write_time then
    [telemetry_line inp s2]
  else []

/-! ## Main `loop` -/

/-- The observable actions of one `loop` iteration, in source order. -/
inductive LoopEvent where
  | read_pots
  | compute_duty
  | temp_sample
  | heat_duty_write
  | fan_duty_write
  | weight_sample
  | state_machine_eval
  | display_render
  | serial_telemetry
  deriving Repr, DecidableEq

/-- The sequence of actions one `loop` iteration performs, as a function of
which rate gates are due, in the order of `loop` (lines 604–648) with the
`manual_roast` body (state machine, then gated display, then gated serial)
inlined at the dispatch point. -/
def loop_events (tempDue weightDue displayDue serialDue : Bool) : List LoopEvent :=
  [LoopEvent.read_pots, LoopEvent.compute_duty]
    ++ (if tempDue then [LoopEvent.temp_sample] else [])
    ++ [LoopEvent.heat_duty_write, LoopEvent.fan_duty_write]
    ++ (if weightDue then [LoopEvent.weight_sample] else [])
    ++ [LoopEvent.state_machine_eval]
    ++ (if displayDue then [LoopEvent.display_render] else [])
    ++ (if serialDue then [LoopEvent.serial_telemetry] else [])

/-- The fully-due iteration order, for reference in order statements. -/
def full_loop_order : List LoopEvent :=
  [LoopEvent.read_pots, LoopEvent.compute_duty, LoopEvent.temp_sample,
   LoopEvent.heat_duty_write, LoopEvent.fan_duty_write, LoopEvent.weight_sample,
   LoopEvent.state_machine_eval, LoopEvent.display_render, LoopEvent.serial_telemetry]

/-- `fan_duty = (fan_value * 100) / MAX_POT_VALUE;` (and likewise
`heat_duty`) — C integer division on a non-negative ADC reading. -/
def duty_percent (v : Nat) : Nat :=
  v * 100 / MAX_POT_VALUE

/-! ## Program dispatch (`loop`, lines 641–647) -/

/-- The program-dispatch state: `current_program` (initialized to 0 and,
in the source, never assigned afterwards) plus logs of which program index
each `setup` and `loop` call was made with. -/
structure DispatchState where
  current_program : Nat
  setup_calls : List Nat
  loop_calls : List Nat
  deriving Repr, DecidableEq

/-- Dispatch state at startup: `int current_program = 0;`, no calls yet. -/
def initial_dispatch_state : DispatchState :=
  { current_program := 0, setup_calls := [], loop_calls := [] }

/-- One pass of the dispatch logic at the end of `loop`, with
`buttons[0].count()` as input:
`if (current_program != buttons[0].count()) { FUNCTIONS[buttons[0].count()].setup(); }`
`FUNCTIONS[buttons[0].count()].loop();`
No statement assigns `current_program`. -/
def dispatch_pass (count : Nat) (d : DispatchState) : DispatchState :=
  let d1 :=
    if d.current_program ≠ count then
      { d with setup_calls := d.setup_calls ++ [count] }
    else d
  { d1 with loop_calls := d1.loop_calls ++ [count] }

/-- Fold the dispatch logic over a sequence of selector counts. -/
def dispatch_run (counts : List Nat) (d : DispatchState) : DispatchState :=
  counts.foldl (fun acc c => dispatch_pass c acc) d

/-! ## Derived phase views (proven equal to the embedding below) -/

/-- The phase after the button check of a pass. -/
def advanced_phase (inp : RoastInput) (p : Nat) : Nat :=
  if inp.buttonChanged then (p + 1) % NSTATES else p

/-- The phase produced by the switch when dispatched on phase `q`. -/
def switch_phase (inp : RoastInput) (q : Nat) : Nat :=
  if q = 0 then 1
  else if q = 1 then if MIN_TEMP_FOR_PREHEAT ≤ inp.intake_temp_f then 2 else 1
  else if q = 2 then 3
  else if q = 3 then 3
  else if q = 4 then 5
  else if q = 5 then if (inp.heat_duty : ℚ) ≤ MAX_HEAT_DUTY_FOR_DROP then 6 else 5
  else if q = 6 then if inp.bean_temp_f < MAX_BEAN_TEMP_FOR_DONE then 7 else 6
  else q

/-- The phase after one full `manual_roast` pass. -/
def phase_step (inp : RoastInput) (p : Nat) : Nat :=
  switch_phase inp (advanced_phase inp p)

/-! ## Concrete scenario inputs -/

/-- A sensor-only pass (no button press): the operator watches while the
roaster heats, then cuts heat and lets the beans cool. -/
def c1_input (t : Int) (intake bean : ℚ) (heat : Int) : RoastInput :=
  { t := t, buttonChanged := false, intake_temp_f := intake, bean_temp_f := bean,
    heat_duty := heat, weight := 50, fan_value := 0, heat_value := 0 }

/-- Eight sensor-only passes: intake rises 300 → 400 °F past the 325 °F
preheat threshold, heater duty later falls 50 → 8 % below the 10 % drop
threshold, bean temperature later falls 200 → 70 °F below the 80 °F done
threshold; the power button is never pressed. -/
def c1_sensor_run : List RoastInput :=
  [c1_input 0 300 200 50, c1_input 1000 400 200 50, c1_input 2000 400 200 50,
   c1_input 3000 400 200 50, c1_input 4000 400 200 8, c1_input 5000 400 70 8,
   c1_input 6000 400 70 8, c1_input 7000 400 70 8]

/-- A pass input with an explicit button flag, for the manual-advance run. -/
def c1_witness_input (t : Int) (btn : Bool) (intake bean : ℚ) (heat : Int) : RoastInput :=
  { t := t, buttonChanged := btn, intake_temp_f := intake, bean_temp_f := bean,
    heat_duty := heat, weight := 50, fan_value := 0, heat_value := 0 }

/-- A pass at `t = 100` ms with the intake still cold. -/
def c3_cex_input : RoastInput :=
  { t := 100, buttonChanged := false, intake_temp_f := 0, bean_temp_f := 200,
    heat_duty := 50, weight := 0, fan_value := 0, heat_value := 0 }

/-- A session in PREHEAT whose roast timer holds the stale value 5. -/
def c3_cex_state : RoastState :=
  { manual_roast_state := 1, start_roast_time := 0, elapsed_roast_time := 5,
    start_total_time := 0, elapsed_total_time := 0, drop_percent := 0,
    last_display_time := 0, last_serial_write_time := 0 }

/-- A session in ROAST (phase 5). -/
def c6_roast_state : RoastState :=
  { manual_roast_state := 5, start_roast_time := 0, elapsed_roast_time := 0,
    start_total_time := 0, elapsed_total_time := 0, drop_percent := 0,
    last_display_time := 0, last_serial_write_time := 0 }

/-- A ROAST pass whose scale still reads the full charge weight. -/
def c6_input : RoastInput :=
  { t := 0, buttonChanged := false, intake_temp_f := 0, bean_temp_f := 200,
    heat_duty := 50, weight := ROAST_WEIGHT_GRAMS, fan_value := 0, heat_value := 0 }

/-- A session in PREHEAT (phase 1). -/
def c7_preheat_state : RoastState :=
  { manual_roast_state := 1, start_roast_time := 0, elapsed_roast_time := 0,
    start_total_time := 0, elapsed_total_time := 0, drop_percent := 0,
    last_display_time := 0, last_serial_write_time := 0 }

/-- A PREHEAT pass observing the given intake temperature. -/
def c7_input (temp : ℚ) : RoastInput :=
  { t := 0, buttonChanged := false, intake_temp_f := temp, bean_temp_f := 200,
    heat_duty := 50, weight := 0, fan_value := 0, heat_value := 0 }

/-- A pass at `t = 1000` ms, past the 250 ms serial period. -/
def c8_input : RoastInput :=
  { t := 1000, buttonChanged := false, intake_temp_f := 0, bean_temp_f := 0,
    heat_duty := 50, weight := 0, fan_value := 7, heat_value := 9 }

/-- A pass with the advance button pressed. -/
def c10_input : RoastInput :=
  { t := 0, buttonChanged := true, intake_temp_f := 0, bean_temp_f := 0,
    heat_duty := 50, weight := 0, fan_value := 0, heat_value := 0 }

/-- A session in DONE (phase 7). -/
def c10_done_state : RoastState :=
  { manual_roast_state := 7, start_roast_time := 0, elapsed_roast_time := 0,
    start_total_time := 0, elapsed_total_time := 0, drop_percent := 0,
    last_display_time := 0, last_serial_write_time := 0 }

/-! ## Helper lemmas -/

lemma button_advance_phase (inp : RoastInput) (s : RoastState) :
    (button_advance inp s).manual_roast_state = advanced_phase inp s.manual_roast_state := by
  simp only [button_advance, advanced_phase]
  split_ifs <;> rfl

lemma button_advance_start_roast (inp : RoastInput) (s : RoastState) :
    (button_advance inp s).start_roast_time = s.start_roast_time := by
  simp only [button_advance]
  split_ifs <;> rfl

lemma button_advance_start_total (inp : RoastInput) (s : RoastState) :
    (button_advance inp s).start_total_time = s.start_total_time := by
  simp only [button_advance]
  split_ifs <;> rfl

lemma button_advance_elapsed_roast (inp : RoastInput) (s : RoastState) :
    (button_advance inp s).elapsed_roast_time = s.elapsed_roast_time := by
  simp only [button_advance]
  split_ifs <;> rfl

lemma button_advance_drop (inp : RoastInput) (s : RoastState) :
    (button_advance inp s).drop_percent = s.drop_percent := by
  simp only [button_advance]
  split_ifs <;> rfl

lemma button_advance_last_serial (inp : RoastInput) (s : RoastState) :
    (button_advance inp s).last_serial_write_time = s.last_serial_write_time := by
  simp only [button_advance]
  split_ifs <;> rfl

lemma roast_switch_phase_eq (inp : RoastInput) (s : RoastState) :
    (roast_switch inp s).manual_roast_state = switch_phase inp s.manual_roast_state := by
  simp only [roast_switch, switch_phase]
  split_ifs <;> simp_all

lemma roast_switch_start_total (inp : RoastInput) (s : RoastState) :
    (roast_switch inp s).start_total_time
      = if s.manual_roast_state = 0 then inp.t else s.start_total_time := by
  simp only [roast_switch]
  split_ifs <;> simp_all

lemma roast_switch_elapsed_roast (inp : RoastInput) (s : RoastState) :
    (roast_switch inp s).elapsed_roast_time
      = if s.manual_roast_state = 5 then inp.t - s.start_roast_time
        else s.elapsed_roast_time := by
  simp only [roast_switch]
  split_ifs <;> simp_all

lemma roast_switch_drop (inp : RoastInput) (s : RoastState) :
    (roast_switch inp s).drop_percent
      = if s.manual_roast_state = 5 then
          100 * (ROAST_WEIGHT_GRAMS - inp.weight) / ROAST_WEIGHT_GRAMS
        else s.drop_percent := by
  simp only [roast_switch]
  split_ifs <;> simp_all

lemma roast_switch_last_serial (inp : RoastInput) (s : RoastState) :
    (roast_switch inp s).last_serial_write_time = s.last_serial_write_time := by
  simp only [roast_switch]
  split_ifs <;> simp_all

lemma roast_core_last_serial (inp : RoastInput) (s : RoastState) :
    (roast_core inp s).last_serial_write_time = s.last_serial_write_time := by
  show (roast_switch inp (button_advance inp s)).last_serial_write_time = _
  rw [roast_switch_last_serial, button_advance_last_serial]

lemma roast_update_phase_core (inp : RoastInput) (s : RoastState) :
    (roast_update inp s).manual_roast_state = (roast_core inp s).manual_roast_state := by
  simp only [roast_update]
  split_ifs <;> rfl

lemma roast_update_elapsed_total_core (inp : RoastInput) (s : RoastState) :
    (roast_update inp s).elapsed_total_time = (roast_core inp s).elapsed_total_time := by
  simp only [roast_update]
  split_ifs <;> rfl

lemma roast_update_elapsed_roast_core (inp : RoastInput) (s : RoastState) :
    (roast_update inp s).elapsed_roast_time = (roast_core inp s).elapsed_roast_time := by
  simp only [roast_update]
  split_ifs <;> rfl

lemma roast_update_drop_core (inp : RoastInput) (s : RoastState) :
    (roast_update inp s).drop_percent = (roast_core inp s).drop_percent := by
  simp only [roast_update]
  split_ifs <;> rfl

lemma roast_update_phase_step (inp : RoastInput) (s : RoastState) :
    (roast_update inp s).manual_roast_state = phase_step inp s.manual_roast_state := by
  rw [roast_update_phase_core]
  show (roast_switch inp (button_advance inp s)).manual_roast_state = _
  rw [roast_switch_phase_eq, button_advance_phase, phase_step]

lemma dispatch_trace_nil (s : RoastState) : dispatch_trace [] s = [] := rfl

lemma dispatch_trace_cons (inp : RoastInput) (rest : List RoastInput) (s : RoastState) :
    dispatch_trace (inp :: rest) s
      = advanced_phase inp s.manual_roast_state :: dispatch_trace rest (roast_update inp s) := by
  rw [dispatch_trace, button_advance_phase]

lemma phase_step_lt (inp : RoastInput) (p : Nat) (h : p < NSTATES) :
    phase_step inp p < NSTATES := by
  simp only [phase_step, advanced_phase, switch_phase]
  simp only [NSTATES] at h ⊢
  split_ifs <;> omega

lemma roast_run_cons (inp : RoastInput) (rest : List RoastInput) (s : RoastState) :
    roast_run (inp :: rest) s = roast_run rest (roast_update inp s) := rfl

lemma roast_run_phase_lt (inps : List RoastInput) (s : RoastState)
    (h : s.manual_roast_state < NSTATES) :
    (roast_run inps s).manual_roast_state < NSTATES := by
  induction inps generalizing s with
  | nil => exact h
  | cons i rest ih =>
      rw [roast_run_cons]
      refine ih _ ?_
      rw [roast_update_phase_step]
      exact phase_step_lt i _ h
/-! ## Claim C1 — roast phase sequence -/

set_option maxRecDepth 4000 in
/-- Claim C1, counterexample: a run whose intake temperature rises past the
preheat threshold, whose heater duty later falls to the drop threshold and
whose bean temperature later falls past the done threshold — yet the phase
sequence visited is `READY, PREHEAT, TARE, LOAD, LOAD, …`: the machine
stalls in LOAD (its weight guard is commented out) and DONE is never
reached. -/
theorem run_stalls_in_load :
    MIN_TEMP_FOR_PREHEAT ≤ (400 : ℚ)
    ∧ ((8 : Int) : ℚ) ≤ MAX_HEAT_DUTY_FOR_DROP
    ∧ (70 : ℚ) < MAX_BEAN_TEMP_FOR_DONE
    ∧ dispatch_trace c1_sensor_run initial_roast_state = [0, 1, 2, 3, 3, 3, 3, 3]
    ∧ dispatch_trace c1_sensor_run initial_roast_state ≠ [0, 1, 2, 3, 4, 5, 6, 7]
    ∧ 7 ∉ dispatch_trace c1_sensor_run initial_roast_state
    ∧ (roast_run c1_sensor_run initial_roast_state).manual_roast_state = 3 := by decide

/-- Claim C1, amended: in a run where the intake temperature reaches the
preheat threshold, one manual button advance occurs while the machine sits
in LOAD (whose sensor guard is disabled in the source), the heater duty then
falls to the drop threshold and the bean temperature then falls past the
done threshold, the sequence of phases the state machine dispatches on is
exactly `READY, PREHEAT, TARE, LOAD, CALIBRATE, ROAST, DROP, DONE`, with no
phase skipped and none reordered. -/
theorem phase_sequence_with_manual_advance
    (i0 i1 i2 i3 i4 i5 i6 i7 : RoastInput)
    (h0 : i0.buttonChanged = false)
    (h1b : i1.buttonChanged = false) (h1 : MIN_TEMP_FOR_PREHEAT ≤ i1.intake_temp_f)
    (h2 : i2.buttonChanged = false)
    (h3 : i3.buttonChanged = false)
    (h4 : i4.buttonChanged = true)
    (h5b : i5.buttonChanged = false) (h5 : (i5.heat_duty : ℚ) ≤ MAX_HEAT_DUTY_FOR_DROP)
    (h6b : i6.buttonChanged = false) (h6 : i6.bean_temp_f < MAX_BEAN_TEMP_FOR_DONE)
    (h7 : i7.buttonChanged = false) :
    dispatch_trace [i0, i1, i2, i3, i4, i5, i6, i7] initial_roast_state
      = [0, 1, 2, 3, 4, 5, 6, 7] := by
  have q0 : initial_roast_state.manual_roast_state = 0 := rfl
  have q1 : (roast_update i0 initial_roast_state).manual_roast_state = 1 := by
    rw [roast_update_phase_step, q0]
    simp [phase_step, advanced_phase, switch_phase, h0]
  have q2 : (roast_update i1 (roast_update i0 initial_roast_state)).manual_roast_state = 2 := by
    rw [roast_update_phase_step, q1]
    simp [phase_step, advanced_phase, switch_phase, h1b, h1]
  have q3 : (roast_update i2 (roast_update i1
      (roast_update i0 initial_roast_state))).manual_roast_state = 3 := by
    rw [roast_update_phase_step, q2]
    simp [phase_step, advanced_phase, switch_phase, h2]
  have q4 : (roast_update i3 (roast_update i2 (roast_update i1
      (roast_update i0 initial_roast_state)))).manual_roast_state = 3 := by
    rw [roast_update_phase_step, q3]
    simp [phase_step, advanced_phase, switch_phase, h3]
  have q5 : (roast_update i4 (roast_update i3 (roast_update i2 (roast_update i1
      (roast_update i0 initial_roast_state))))).manual_roast_state = 5 := by
    rw [roast_update_phase_step, q4]
    simp [phase_step, advanced_phase, switch_phase, h4, NSTATES]
  have q6 : (roast_update i5 (roast_update i4 (roast_update i3 (roast_update i2
      (roast_update i1 (roast_update i0 initial_roast_state)))))).manual_roast_state = 6 := by
    rw [roast_update_phase_step, q5]
    simp [phase_step, advanced_phase, switch_phase, h5b, h5]
  have q7 : (roast_update i6 (roast_update i5 (roast_update i4 (roast_update i3
      (roast_update i2 (roast_update i1
        (roast_update i0 initial_roast_state))))))).manual_roast_state = 7 := by
    rw [roast_update_phase_step, q6]
    simp [phase_step, advanced_phase, switch_phase, h6b, h6]
  simp only [dispatch_trace_cons, dispatch_trace_nil, q0, q1, q2, q3, q4, q5, q6, q7]
  simp [advanced_phase, h0, h1b, h2, h3, h4, h5b, h6b, h7, NSTATES]

/-- Claim C1, witness for the amended theorem: a concrete eight-pass run
with a single manual advance while in LOAD walks all eight phases in
order. -/
theorem phase_sequence_with_manual_advance_witness :
    dispatch_trace
      [c1_witness_input 0 false 300 200 50, c1_witness_input 1000 false 400 200 50,
       c1_witness_input 2000 false 400 200 50, c1_witness_input 3000 false 400 200 50,
       c1_witness_input 4000 true 400 200 50, c1_witness_input 5000 false 400 200 8,
       c1_witness_input 6000 false 400 70 8, c1_witness_input 7000 false 400 70 8]
      initial_roast_state = [0, 1, 2, 3, 4, 5, 6, 7] :=
  phase_sequence_with_manual_advance _ _ _ _ _ _ _ _
    rfl rfl (by norm_num [MIN_TEMP_FOR_PREHEAT, c1_witness_input]) rfl rfl rfl rfl
    (by norm_num [MAX_HEAT_DUTY_FOR_DROP, c1_witness_input]) rfl
    (by norm_num [MAX_BEAN_TEMP_FOR_DONE, c1_witness_input]) rfl

/-! ## Claim C2 — per-iteration ordering -/

/-- Claim C2, counterexample: in a fully-due iteration the heater and fan
duty writes happen before the state-machine evaluation, the display render
and the telemetry emission — not after them as the claim requires. -/
theorem actuator_writes_precede_render :
    loop_events true true true true = full_loop_order
    ∧ full_loop_order.indexOf LoopEvent.heat_duty_write
        < full_loop_order.indexOf LoopEvent.state_machine_eval
    ∧ full_loop_order.indexOf LoopEvent.heat_duty_write
        < full_loop_order.indexOf LoopEvent.display_render
    ∧ full_loop_order.indexOf LoopEvent.fan_duty_write
        < full_loop_order.indexOf LoopEvent.serial_telemetry
    ∧ ¬ (full_loop_order.indexOf LoopEvent.display_render
          < full_loop_order.indexOf LoopEvent.heat_duty_write) := by decide

/-- Claim C2, amended: in every iteration the events occur in the fixed
order pot read, duty computation, temperature sample (if due), heater duty
write, fan duty write, load-cell sample (if due), state-machine evaluation,
display render (if due), telemetry (if due) — so sensor refresh precedes
the state machine and the state machine precedes render/telemetry, but the
actuator writes happen earlier in the iteration, not after
render/telemetry. -/
theorem loop_order (tD wD dD sD : Bool) :
    (loop_events tD wD dD sD).Sublist full_loop_order
    ∧ LoopEvent.state_machine_eval ∈ loop_events tD wD dD sD
    ∧ LoopEvent.heat_duty_write ∈ loop_events tD wD dD sD
    ∧ LoopEvent.fan_duty_write ∈ loop_events tD wD dD sD
    ∧ loop_events true true true true = full_loop_order := by
  revert tD wD dD sD
  decide

/-! ## Claim C3 — timer recomputation -/

/-- Claim C3, counterexample: a PREHEAT pass at `t = 100` leaves the stale
`elapsed_roast_time = 5` untouched instead of recomputing
`t − start_roast_time = 100`. -/
theorem roast_timer_stale :
    (roast_update c3_cex_input c3_cex_state).elapsed_roast_time = 5
    ∧ c3_cex_input.t - c3_cex_state.start_roast_time = 100
    ∧ (roast_update c3_cex_input c3_cex_state).elapsed_roast_time
        ≠ c3_cex_input.t - c3_cex_state.start_roast_time := by decide

/-- Claim C3, amended: every pass recomputes
`elapsed_total_time = t − start_total_time` unconditionally (with
`start_total_time` freshly set when the dispatched phase is READY), but
`elapsed_roast_time = t − start_roast_time` is recomputed only when the
dispatched phase is ROAST; in every other phase it keeps its previous
value. -/
theorem timers_recompute (inp : RoastInput) (s : RoastState) :
    (roast_update inp s).elapsed_total_time
      = inp.t - (if advanced_phase inp s.manual_roast_state = 0 then inp.t
                 else s.start_total_time)
    ∧ (roast_update inp s).elapsed_roast_time
      = (if advanced_phase inp s.manual_roast_state = 5 then inp.t - s.start_roast_time
         else s.elapsed_roast_time) := by
  constructor
  · rw [roast_update_elapsed_total_core]
    have h0 : (roast_core inp s).elapsed_total_time
        = inp.t - (roast_switch inp (button_advance inp s)).start_total_time := rfl
    rw [h0, roast_switch_start_total, button_advance_phase, button_advance_start_total]
  · rw [roast_update_elapsed_roast_core]
    have h0 : (roast_core inp s).elapsed_roast_time
        = (roast_switch inp (button_advance inp s)).elapsed_roast_time := rfl
    rw [h0, roast_switch_elapsed_roast, button_advance_phase, button_advance_start_roast,
        button_advance_elapsed_roast]

/-! ## Claim C4 — rate gates -/

/-- Claim C4, counterexample: the display gate's period is 16 ms, yet at
elapsed time exactly 16 ms the gate is not due (it uses strict `>`), and
likewise the serial gate at exactly 250 ms — contradicting the claim that
every gate fires once elapsed time reaches the period. -/
theorem display_gate_not_due_at_period :
    MIN_DISPLAY_RATE = 16 ∧ MIN_DISPLAY_RATE ≤ (16 : Int) - 0
    ∧ display_gate_due 16 0 = false
    ∧ MIN_SERIAL_PRINT_RATE = 250 ∧ MIN_SERIAL_PRINT_RATE ≤ (250 : Int) - 0
    ∧ serial_gate_due 250 0 = false := by decide

/-- Claim C4, amended: the temperature gate (period 250 ms) and the
load-cell gate (period 100 ms) are due exactly when elapsed time is `≥`
the period, while the display gate (period 16 ms) and the serial gate
(period 250 ms) are due exactly when elapsed time is strictly `>` the
period — never at the period itself.  Each check is a pure function of the
elapsed time, so preceding not-due checks cannot affect it. -/
theorem gate_characterization (t a b c d : Int) :
    (temp_gate_due t a = true ↔ 250 ≤ t - a)
    ∧ (load_cell_gate_due t b = true ↔ 100 ≤ t - b)
    ∧ (display_gate_due t c = true ↔ 16 < t - c)
    ∧ (serial_gate_due t d = true ↔ 250 < t - d) := by
  norm_num [temp_gate_due, load_cell_gate_due, display_gate_due, serial_gate_due,
    MIN_TEMP_SAMPLE_RATE, MIN_LOAD_CELL_SAMPLE_RATE, MIN_DISPLAY_RATE,
    MIN_SERIAL_PRINT_RATE]

/-! ## Claim C5 — program dispatch -/

/-- Claim C5: because `current_program` is never assigned after its
initialization to 0, two consecutive passes with the selector count at 1
(an unchanged selection after one switch) invoke the selected program's
setup on both passes — setup is not one-time, contradicting the claim and
the intent documented in the spec. -/
theorem setup_reinvoked_every_pass :
    (dispatch_run [1, 1] initial_dispatch_state).setup_calls = [1, 1]
    ∧ (dispatch_run [1, 1] initial_dispatch_state).current_program = 0
    ∧ (dispatch_run [1, 1] initial_dispatch_state).loop_calls = [1, 1] := by decide
/-! ## Claim C6 — drop percentage -/

/-- Claim C6: in a ROAST pass `drop_percent` is recomputed as
`100 × (ROAST_WEIGHT_GRAMS − weight) / ROAST_WEIGHT_GRAMS`; it is 0 when
the weight equals the charge weight and 100 when the weight is 0, and the
displayed value is clamped to be ≥ 0 for every raw value, including
negative ones arising when the weight exceeds the charge weight. -/
theorem drop_percent_formula (inp : RoastInput) (s : RoastState)
    (hb : inp.buttonChanged = false) (hp : s.manual_roast_state = 5) :
    (roast_update inp s).drop_percent
      = 100 * (ROAST_WEIGHT_GRAMS - inp.weight) / ROAST_WEIGHT_GRAMS
    ∧ (inp.weight = ROAST_WEIGHT_GRAMS → (roast_update inp s).drop_percent = 0)
    ∧ (inp.weight = 0 → (roast_update inp s).drop_percent = 100)
    ∧ (∀ d : ℚ, 0 ≤ displayed_drop_percent d) := by
  have key : (roast_update inp s).drop_percent
      = 100 * (ROAST_WEIGHT_GRAMS - inp.weight) / ROAST_WEIGHT_GRAMS := by
    rw [roast_update_drop_core]
    have h0 : (roast_core inp s).drop_percent
        = (roast_switch inp (button_advance inp s)).drop_percent := rfl
    rw [h0, roast_switch_drop, button_advance_phase]
    simp [advanced_phase, hb, hp]
  refine ⟨key, ?_, ?_, ?_⟩
  · intro hw
    rw [key, hw]
    simp
  · intro hw
    rw [key, hw]
    norm_num [ROAST_WEIGHT_GRAMS]
  · intro d
    simp only [displayed_drop_percent]
    split_ifs with h
    · exact le_of_lt h
    · exact le_refl 0

/-- Claim C6, witness: a ROAST pass reading exactly the charge weight
computes `drop_percent = 0`. -/
theorem drop_percent_formula_witness :
    (roast_update c6_input c6_roast_state).drop_percent
      = 100 * (ROAST_WEIGHT_GRAMS - c6_input.weight) / ROAST_WEIGHT_GRAMS
    ∧ (c6_input.weight = ROAST_WEIGHT_GRAMS
        → (roast_update c6_input c6_roast_state).drop_percent = 0)
    ∧ (c6_input.weight = 0 → (roast_update c6_input c6_roast_state).drop_percent = 100)
    ∧ (∀ d : ℚ, 0 ≤ displayed_drop_percent d) :=
  drop_percent_formula c6_input c6_roast_state rfl rfl

/-! ## Claim C7 — preheat threshold -/

/-- Claim C7: from PREHEAT (without a button press) the machine moves to
TARE exactly when the intake temperature is at least the 325 °F threshold;
on the intake sequence 300, 310, 326 °F the transition happens at the
evaluation observing 326, not at 310. -/
theorem preheat_to_tare (inp : RoastInput) (s : RoastState)
    (hb : inp.buttonChanged = false) (hp : s.manual_roast_state = 1) :
    ((roast_update inp s).manual_roast_state = 2 ↔ MIN_TEMP_FOR_PREHEAT ≤ inp.intake_temp_f)
    ∧ MIN_TEMP_FOR_PREHEAT = 325
    ∧ (roast_run [c7_input 300] c7_preheat_state).manual_roast_state = 1
    ∧ (roast_run [c7_input 300, c7_input 310] c7_preheat_state).manual_roast_state = 1
    ∧ (roast_run [c7_input 300, c7_input 310, c7_input 326] c7_preheat_state).manual_roast_state
        = 2 := by
  refine ⟨?_, by norm_num [MIN_TEMP_FOR_PREHEAT], by decide, by decide, by decide⟩
  rw [roast_update_phase_step]
  simp only [phase_step, advanced_phase, switch_phase, hb, hp]
  norm_num

/-- Claim C7, witness: the PREHEAT pass reading 326 °F transitions to
TARE. -/
theorem preheat_to_tare_witness :
    ((roast_update (c7_input 326) c7_preheat_state).manual_roast_state = 2
      ↔ MIN_TEMP_FOR_PREHEAT ≤ (c7_input 326).intake_temp_f)
    ∧ MIN_TEMP_FOR_PREHEAT = 325
    ∧ (roast_run [c7_input 300] c7_preheat_state).manual_roast_state = 1
    ∧ (roast_run [c7_input 300, c7_input 310] c7_preheat_state).manual_roast_state = 1
    ∧ (roast_run [c7_input 300, c7_input 310, c7_input 326] c7_preheat_state).manual_roast_state
        = 2 :=
  preheat_to_tare (c7_input 326) c7_preheat_state rfl rfl

/-! ## Claim C8 — telemetry line -/

/-- Claim C8: a due telemetry tick emits exactly one delimited line whose
fields appear in the order `elapsed_roast_time, elapsed_total_time, phase
name, fan_value, heat_value, bean_temp_f, intake_temp_f, weight,
drop_percent`, read from the state produced by this pass's state-machine
evaluation. -/
theorem telemetry_field_order (inp : RoastInput) (s : RoastState)
    (h : serial_gate_due inp.t s.last_serial_write_time = true) :
    serial_output inp s = [telemetry_line inp (roast_core inp s)]
    ∧ (serial_output inp s).length = 1
    ∧ telemetry_line inp (roast_core inp s)
        = [TelemetryValue.ofInt (roast_core inp s).elapsed_roast_time,
           TelemetryValue.ofInt (roast_core inp s).elapsed_total_time,
           TelemetryValue.ofStr (state_strings.getD (roast_core inp s).manual_roast_state ""),
           TelemetryValue.ofInt inp.fan_value,
           TelemetryValue.ofInt inp.heat_value,
           TelemetryValue.ofRat inp.bean_temp_f,
           TelemetryValue.ofRat inp.intake_temp_f,
           TelemetryValue.ofRat inp.weight,
           TelemetryValue.ofRat (roast_core inp s).drop_percent] := by
  have hout : serial_output inp s = [telemetry_line inp (roast_core inp s)] := by
    simp only [serial_output, roast_core_last_serial, h, if_true]
  exact ⟨hout, by rw [hout]; rfl, rfl⟩

/-- Claim C8, witness: a pass at `t = 1000` ms from the initial state is
due and emits exactly one line with the nine fields in order. -/
theorem telemetry_field_order_witness :
    serial_output c8_input initial_roast_state
        = [telemetry_line c8_input (roast_core c8_input initial_roast_state)]
    ∧ (serial_output c8_input initial_roast_state).length = 1
    ∧ telemetry_line c8_input (roast_core c8_input initial_roast_state)
        = [TelemetryValue.ofInt (roast_core c8_input initial_roast_state).elapsed_roast_time,
           TelemetryValue.ofInt (roast_core c8_input initial_roast_state).elapsed_total_time,
           TelemetryValue.ofStr
             (state_strings.getD
               (roast_core c8_input initial_roast_state).manual_roast_state ""),
           TelemetryValue.ofInt c8_input.fan_value,
           TelemetryValue.ofInt c8_input.heat_value,
           TelemetryValue.ofRat c8_input.bean_temp_f,
           TelemetryValue.ofRat c8_input.intake_temp_f,
           TelemetryValue.ofRat c8_input.weight,
           TelemetryValue.ofRat (roast_core c8_input initial_roast_state).drop_percent] :=
  telemetry_field_order c8_input initial_roast_state (by decide)

/-! ## Claim C9 — duty percentage -/

/-- Claim C9: for every raw ADC value `v ≤ MAX_POT_VALUE` (= 4095), the
duty percentage is the integer (floor) division `v * 100 / 4095`, and it
lies between 0 and 100 inclusive. -/
theorem duty_percent_floor (v : Nat) (h : v ≤ MAX_POT_VALUE) :
    duty_percent v = v * 100 / 4095 ∧ duty_percent v ≤ 100 := by
  have e : MAX_POT_VALUE = 4095 := rfl
  constructor
  · rw [duty_percent, e]
  · rw [e] at h
    calc duty_percent v = v * 100 / 4095 := rfl
    _ ≤ 4095 * 100 / 4095 := Nat.div_le_div_right (Nat.mul_le_mul_right 100 h)
    _ = 100 := by norm_num

/-- Claim C9, witness: a full-scale reading gives exactly 100 %. -/
theorem duty_percent_floor_witness :
    duty_percent 4095 = 4095 * 100 / 4095 ∧ duty_percent 4095 ≤ 100 :=
  duty_percent_floor 4095 (by decide)

/-! ## Claim C10 — phase range invariant -/

/-- Claim C10: every state reachable from startup has its phase among the
eight values 0–7; one pass preserves the bound; the manual advance computes
`(phase + 1) % NSTATES`, so advancing from DONE (7) wraps to READY (0); and
the label looked up for any in-range phase is never the ninth label
`"wrap"`. -/
theorem phase_in_range (inps : List RoastInput) (inp : RoastInput) (s : RoastState)
    (h : s.manual_roast_state < NSTATES) :
    (roast_run inps initial_roast_state).manual_roast_state < NSTATES
    ∧ (roast_update inp s).manual_roast_state < NSTATES
    ∧ (s.manual_roast_state = 7 → inp.buttonChanged = true
        → (button_advance inp s).manual_roast_state = 0)
    ∧ state_strings.getD s.manual_roast_state "" ≠ "wrap" := by
  refine ⟨roast_run_phase_lt inps initial_roast_state (by decide), ?_, ?_, ?_⟩
  · rw [roast_update_phase_step]
    exact phase_step_lt inp _ h
  · intro h7 hbtn
    rw [button_advance_phase]
    simp [advanced_phase, hbtn, h7, NSTATES]
  · rcases s with ⟨p, a1, a2, a3, a4, a5, a6, a7⟩
    simp only [NSTATES] at h
    dsimp only at h ⊢
    interval_cases p <;> decide

/-- Claim C10, witness: pressing the advance button in DONE wraps the
phase to READY and the bound holds along a concrete two-pass run. -/
theorem phase_in_range_witness :
    (roast_run [c10_input, c10_input] initial_roast_state).manual_roast_state < NSTATES
    ∧ (roast_update c10_input c10_done_state).manual_roast_state < NSTATES
    ∧ (c10_done_state.manual_roast_state = 7 → c10_input.buttonChanged = true
        → (button_advance c10_input c10_done_state).manual_roast_state = 0)
    ∧ state_strings.getD c10_done_state.manual_roast_state "" ≠ "wrap" :=
  phase_in_range [c10_input, c10_input] c10_input c10_done_state (by decide)

end Roastomatic
